import Mathlib

/-!
Shallow embedding of python-libaio (`libaio/__init__.py` and the ctypes
declarations of `libaio/libaio.py`), restricted to the pure state-transforming
content of `AIOBlock` and `AIOContext`.  Kernel calls (`io_submit`,
`io_cancel`, `io_getevents`, `io_queue_release`) are external: each embedded
operation takes the kernel's reply as an explicit argument, and
`io_queue_release` invocations are recorded in a ghost trace.  Python
exceptions are modelled with `Except`; completion-hook invocations are
modelled as an explicit log of `(block address, res, res2)` calls, since
`onCompletion` is an opaque callable.
-/

set_option synthInstance.maxSize 1024

namespace Libaio

/-- `errno.EINPROGRESS` on Linux. -/
def EINPROGRESS : Nat := 115

/-- `errno.EINVAL` on Linux. -/
def EINVAL : Nat := 22

/-- `libaio/libaio.py` line 244. -/
def IOCB_FLAG_RESFD : Nat := 1

/-- `libaio/libaio.py` line 245. -/
def IOCB_FLAG_IOPRIO : Nat := 2

/-- `libaio/libaio.py` lines 50-57 (io_iocb_cmd). -/
def IO_CMD_PREAD : Nat := 0

def IO_CMD_PWRITE : Nat := 1

def IO_CMD_FSYNC : Nat := 2

def IO_CMD_FDSYNC : Nat := 3

def IO_CMD_POLL : Nat := 5

def IO_CMD_NOOP : Nat := 6

def IO_CMD_PREADV : Nat := 7

def IO_CMD_PWRITEV : Nat := 8

/-- The five module-level mode tokens of `libaio/__init__.py` lines 105-109. -/
inductive AIOBlockMode where
  | read
  | write
  | fsync
  | fdsync
  | poll
deriving Repr, DecidableEq

/-- `AIOBlock._AIOBLOCK_MODE_DICT`, `libaio/__init__.py` lines 118-124. -/
def _AIOBLOCK_MODE_DICT : AIOBlockMode → Nat
  | AIOBlockMode.read => IO_CMD_PREADV
  | AIOBlockMode.write => IO_CMD_PWRITEV
  | AIOBlockMode.fsync => IO_CMD_FSYNC
  | AIOBlockMode.fdsync => IO_CMD_FDSYNC
  | AIOBlockMode.poll => IO_CMD_POLL

/-- A mutable Python buffer (mmap, bytearray, ...) abstracted to the address
`c_char.from_buffer` exposes and the length `len`/`memoryview` reports
(`libaio/__init__.py` lines 260-267). -/
structure Buffer where
  addr : Nat
  len : Nat
deriving Repr, DecidableEq

/-- The value held by the `c_void_p` field `iocb.u.c.buf`: NULL, the raw
event mask written by the `event_mask` setter (line 290), or the address of
the freshly built iovec array (line 269), kept symbolically together with the
array's contents. -/
inductive BufVal where
  | null
  | mask (m : Nat)
  | iovecPtr (iov : List (Nat × Nat))
deriving Repr, DecidableEq

/-- The fields of the ctypes `iocb` structure (`libaio/libaio.py` lines
122-132 and the `io_iocb_common` member, lines 95-105) that
`libaio/__init__.py` reads or writes. -/
structure Iocb where
  aio_lio_opcode : Nat
  aio_reqprio : Int
  aio_fildes : Int
  aio_rw_flags : Int
  u_c_buf : BufVal
  u_c_nbytes : Nat
  u_c_offset : Int
  u_c_flags : Nat
  u_c_resfd : Int
deriving Repr, DecidableEq

/-- `libaio.zero(iocb)` (memset to 0), `libaio/__init__.py` line 184. -/
def zeroIocb : Iocb :=
  { aio_lio_opcode := 0
    aio_reqprio := 0
    aio_fildes := 0
    aio_rw_flags := 0
    u_c_buf := BufVal.null
    u_c_nbytes := 0
    u_c_offset := 0
    u_c_flags := 0
    u_c_resfd := 0 }

/-- What the instance attribute `AIOBlock._eventfd` can hold: the class
default `None` (line 130), an eventfd handle supplied by the caller, or the
module-level function `eventfd` imported at `libaio/__init__.py` line 30. -/
inductive StoredEventFD where
  | pyNone
  | handle (fd : Int)
  | eventfdFunction
deriving Repr, DecidableEq

/-- `AIOBlock` state: the embedded ctypes `iocb` (whose address `addr` is the
correlation token used by `AIOContext`), plus the Python-level instance
attributes of `libaio/__init__.py` lines 129-133.  The opaque callable
`_onCompletion` is not stored; hook invocations are tracked as logs keyed by
`addr`. -/
structure AIOBlock where
  addr : Nat
  iocb : Iocb
  _buffer_list : Option (List Buffer)
  _eventfd : StoredEventFD
  _file : Option Int
  _iovec : Option (List (Nat × Nat))
deriving Repr, DecidableEq

/-- Python exceptions that the embedded code can raise. -/
inductive PyErr where
  | assertionError
  | attributeError
  | keyError
  | runtimeError
  | osError (errno : Nat)
deriving Repr, DecidableEq

/-- `flags & ~FLAG` as executed through a `c_uint` field: Python computes the
bitwise and with the (negative) complement and ctypes truncates the store to
32 bits, which clears the flag bit. -/
def clearFlag (flags flag : Nat) : Nat :=
  flags &&& (4294967295 ^^^ flag)

/-- `buffer_list` setter, `libaio/__init__.py` lines 249-273. -/
def buffer_list_set (b : AIOBlock) (value : List Buffer) : Except PyErr AIOBlock :=
  if b.iocb.aio_lio_opcode = IO_CMD_POLL then Except.error PyErr.attributeError
  else
    let buffer_list := value
    let buffer_count := buffer_list.length
    if buffer_count ≠ 0 then
      let iovec := buffer_list.map (fun x => (x.addr, x.len))
      Except.ok { b with
        iocb := { b.iocb with u_c_nbytes := buffer_count, u_c_buf := BufVal.iovecPtr iovec }
        _buffer_list := some buffer_list
        _iovec := some iovec }
    else
      Except.ok { b with
        iocb := { b.iocb with u_c_nbytes := buffer_count, u_c_buf := BufVal.null }
        _buffer_list := some buffer_list
        _iovec := none }

/-- `offset` setter, `libaio/__init__.py` lines 301-303 (no mode guard in the
source); ctypes truncates the store into the `c_longlong` field. -/
def offset_set (b : AIOBlock) (value : Int) : AIOBlock :=
  { b with iocb := { b.iocb with
      u_c_offset := (value + 9223372036854775808) % 18446744073709551616 - 9223372036854775808 } }

/-- `rw_flags` setter, `libaio/__init__.py` lines 353-357. -/
def rw_flags_set (b : AIOBlock) (value : Int) : Except PyErr AIOBlock :=
  if b.iocb.aio_lio_opcode = IO_CMD_POLL then Except.error PyErr.attributeError
  else Except.ok { b with iocb := { b.iocb with aio_rw_flags := value } }

/-- `event_mask` setter, `libaio/__init__.py` lines 286-290. -/
def event_mask_set (b : AIOBlock) (value : Nat) : Except PyErr AIOBlock :=
  if b.iocb.aio_lio_opcode ≠ IO_CMD_POLL then Except.error PyErr.attributeError
  else Except.ok { b with iocb := { b.iocb with u_c_buf := BufVal.mask value } }

/-- `mode` setter, `libaio/__init__.py` lines 207-218.  The clearing
assignments run through the `buffer_list`/`offset`/`rw_flags`/`event_mask`
setters while `aio_lio_opcode` still holds the old opcode. -/
def mode_set (b : AIOBlock) (value : AIOBlockMode) : Except PyErr AIOBlock := do
  let old_opcode := b.iocb.aio_lio_opcode
  let new_opcode := _AIOBLOCK_MODE_DICT value
  let b ←
    if old_opcode ≠ new_opcode then
      if new_opcode = IO_CMD_POLL then do
        let b ← buffer_list_set b []
        let b := offset_set b 0
        rw_flags_set b 0
      else if old_opcode = IO_CMD_POLL then
        event_mask_set b 0
      else
        pure b
    else
      pure b
  pure { b with iocb := { b.iocb with aio_lio_opcode := new_opcode } }

/-- `target_file` setter, `libaio/__init__.py` lines 227-233; the file object
is abstracted to its file descriptor (`getattr(value, 'fileno', ...)()`). -/
def target_file_set (b : AIOBlock) (value : Option Int) : AIOBlock :=
  match value with
  | none => { b with _file := none, iocb := { b.iocb with aio_fildes := 0 } }
  | some f => { b with _file := some f, iocb := { b.iocb with aio_fildes := f } }

/-- `io_priority` setter, `libaio/__init__.py` lines 332-340. -/
def io_priority_set (b : AIOBlock) (value : Option Int) : AIOBlock :=
  match value with
  | none =>
    { b with iocb := { b.iocb with
        u_c_flags := clearFlag b.iocb.u_c_flags IOCB_FLAG_IOPRIO
        aio_reqprio := 0 } }
  | some v =>
    { b with iocb := { b.iocb with
        u_c_flags := b.iocb.u_c_flags ||| IOCB_FLAG_IOPRIO
        aio_reqprio := v } }

/-- `eventfd` setter, `libaio/__init__.py` lines 366-375.  Line 375 reads
`self._eventfd = eventfd`: the name `eventfd` is not the setter's parameter
(which is named `value`) but the module-level function imported at line 30,
so that function object, not `value`, is stored. -/
def eventfd_set (b : AIOBlock) (value : Option Int) : AIOBlock :=
  let iocb := b.iocb
  let iocb :=
    match value with
    | none =>
      { iocb with u_c_flags := clearFlag iocb.u_c_flags IOCB_FLAG_RESFD, u_c_resfd := 0 }
    | some v =>
      { iocb with u_c_flags := iocb.u_c_flags ||| IOCB_FLAG_RESFD, u_c_resfd := v }
  { b with iocb := iocb, _eventfd := StoredEventFD.eventfdFunction }

/-- `eventfd` getter, `libaio/__init__.py` lines 359-364. -/
def eventfd_get (b : AIOBlock) : StoredEventFD :=
  b._eventfd

/-- A value read from a ctypes structure field of fundamental integer type
(here the `c_longlong` field `iocb.u.c.offset`): CPython converts such field
reads to plain Python `int` objects. -/
inductive CtypesRead where
  | plainInt (i : Int)
deriving Repr, DecidableEq

/-- Python attribute access `x.value` on such a read: a plain `int` has no
attribute `value` (only ctypes instances do), so it raises AttributeError. -/
def value_attribute : CtypesRead → Except PyErr Int
  | CtypesRead.plainInt _ => Except.error PyErr.attributeError

/-- `offset` getter, `libaio/__init__.py` lines 292-299:
`return self._iocb.u.c.offset.value`. -/
def offset_get (b : AIOBlock) : Except PyErr Int :=
  value_attribute (CtypesRead.plainInt b.iocb.u_c_offset)

/-- `AIOBlock.__init__`, `libaio/__init__.py` lines 135-195, with the file
abstracted to a file descriptor and `onCompletion` left out (hook calls are
logged by address instead).  `addr` is `addressof(self._iocb)`. -/
def AIOBlock.init (addr : Nat) (mode : AIOBlockMode) (target_file : Option Int)
    (buffer_list : List Buffer) (offset : Int) (eventfd : Option Int)
    (rw_flags : Int) (io_priority : Option Int) (event_mask : Nat) :
    Except PyErr AIOBlock := do
  let b : AIOBlock :=
    { addr := addr
      iocb := zeroIocb
      _buffer_list := none
      _eventfd := StoredEventFD.pyNone
      _file := none
      _iovec := none }
  let b ← mode_set b mode
  let b := target_file_set b target_file
  let b := io_priority_set b io_priority
  let b ←
    if mode = AIOBlockMode.poll then
      event_mask_set b event_mask
    else do
      let b ← buffer_list_set b buffer_list
      let b := offset_set b offset
      rw_flags_set b rw_flags
  pure (eventfd_set b eventfd)

/-- `AIOBlock._getSubmissionState`, `libaio/__init__.py` lines 377-382. -/
def _getSubmissionState (b : AIOBlock) : Option (List Buffer) × Option (List (Nat × Nat)) :=
  (b._buffer_list, b._iovec)

/-- The values a registration-table entry retains: `(self._buffer_list,
self._iovec)` as returned by `_getSubmissionState`. -/
abbrev SubState := Option (List Buffer) × Option (List (Nat × Nat))

/-- One value of the `_submitted` dict: `(block, block._getSubmissionState())`
(`libaio/__init__.py` line 463). -/
abbrev Entry := AIOBlock × SubState

/-- A Python dict with `Nat` keys, modelled as its insertion-ordered
association list (CPython dicts preserve insertion order; re-assigning an
existing key keeps its position). -/
abbrev Dict (α : Type) := List (Nat × α)

/-- `d[k]` / `d.get(k)`. -/
def dictLookup {α : Type} : Dict α → Nat → Option α
  | [], _ => none
  | (k', v) :: rest, k => if k' = k then some v else dictLookup rest k

/-- `d[k] = v`: replace in place if the key exists, else append. -/
def dictSet {α : Type} : Dict α → Nat → α → Dict α
  | [], k, v => [(k, v)]
  | (k', v') :: rest, k, v =>
    if k' = k then (k, v) :: rest else (k', v') :: dictSet rest k v

/-- Removal of a key, as performed by `d.pop(k)`. -/
def dictRemove {α : Type} : Dict α → Nat → Dict α
  | [], _ => []
  | (k', v') :: rest, k => if k' = k then rest else (k', v') :: dictRemove rest k

/-- `d.pop(k)`: the value and the remaining dict, or `none` when the key is
missing (in which case Python raises KeyError). -/
def dictPop {α : Type} (d : Dict α) (k : Nat) : Option (α × Dict α) :=
  match dictLookup d k with
  | none => none
  | some v => some (v, dictRemove d k)

/-- `len(d)`. -/
def dictLen {α : Type} (d : Dict α) : Nat :=
  d.length

/-- `d.values()`, in insertion order. -/
def dictValues {α : Type} (d : Dict α) : List α :=
  d.map Prod.snd

/-- The CPython dict invariant: keys are pairwise distinct. -/
abbrev dictNodupKeys {α : Type} (d : Dict α) : Prop :=
  (d.map Prod.fst).Nodup

/-- `AIOContext` state (`libaio/__init__.py` lines 384-402): the capacity
hint, the `_submitted` dict keyed by `addressof(block._iocb)`, and the
context handle (`None` both for the class attribute default and after
`close` deletes the instance attribute, line 388 / 413).  `releaseLog` is a
ghost trace of the `io_queue_release` invocations. -/
structure AIOContext where
  _maxevents : Nat
  _submitted : Dict Entry
  _ctx : Option Nat
  releaseLog : List Nat
deriving Repr, DecidableEq

/-- `AIOContext.__init__`, `libaio/__init__.py` lines 390-402, after a
successful `io_queue_init` that produced the kernel handle `ctx`. -/
def AIOContext.init (maxevents : Nat) (ctx : Nat) : AIOContext :=
  { _maxevents := maxevents
    _submitted := []
    _ctx := some ctx
    releaseLog := [] }

/-- `AIOContext.close`, `libaio/__init__.py` lines 404-413: release the
kernel handle if `self._ctx` is not None, then `del self._ctx`, after which
attribute reads fall back to the class attribute `_ctx = None` (line 388). -/
def close (c : AIOContext) : AIOContext :=
  match c._ctx with
  | none => c
  | some ctx => { c with _ctx := none, releaseLog := c.releaseLog ++ [ctx] }

/-- `AIOContext.__exit__`, `libaio/__init__.py` lines 421-425: calls close. -/
def __exit__ (c : AIOContext) : AIOContext :=
  close c

/-- `AIOContext.__del__`, `libaio/__init__.py` lines 427-432: calls close. -/
def __del__ (c : AIOContext) : AIOContext :=
  close c

/-- The registration loop of `submit`, `libaio/__init__.py` lines 460-464:
`for block in block_list[:submitted_count]:
   submitted[addressof(block._iocb)] = (block, block._getSubmissionState())`. -/
def registerList (d : Dict Entry) (blocks : List AIOBlock) : Dict Entry :=
  blocks.foldl (fun s block => dictSet s block.addr (block, _getSubmissionState block)) d

/-- `AIOContext.submit`, `libaio/__init__.py` lines 434-465.  The external
`io_submit` call is passed in as its outcome: `Except.error e` when the C
binding's errcheck raised `OSError(e)` for a negative return, otherwise the
accepted count.  The `assert` on line 445 is modelled as enabled. -/
def submit (c : AIOContext) (block_list : List AIOBlock)
    (io_submit_result : Except Nat Nat) : Except PyErr (AIOContext × Nat) :=
  if block_list.any (fun x => x._file.isNone) then Except.error PyErr.assertionError
  else
    match io_submit_result with
    | Except.error e => Except.error (PyErr.osError e)
    | Except.ok submitted_count =>
      Except.ok
        ({ c with _submitted := registerList c._submitted (block_list.take submitted_count) },
         submitted_count)

/-- An `io_event` as filled by the kernel (`libaio/libaio.py` lines 139-147):
`obj` abstracts `addressof(event.obj.contents)`, the iocb address. -/
structure IoEvent where
  obj : Nat
  res : Int
  res2 : Int
deriving Repr, DecidableEq

/-- One element of the list `getEvents` returns: `(aio_block, res, res2)`. -/
abbrev Triple := AIOBlock × Int × Int

/-- One recorded invocation `aio_block.onCompletion(aio_block, res, res2)`,
keyed by the block's iocb address. -/
abbrev HookCall := Nat × Int × Int

/-- `AIOContext._eventToPython`, `libaio/__init__.py` lines 467-474:
`self._submitted.pop(addressof(event.obj.contents))` (KeyError when absent),
then the completion hook runs and the triple is returned. -/
def _eventToPython (c : AIOContext) (event : IoEvent) :
    Except PyErr (AIOContext × Triple × List HookCall) :=
  match dictPop c._submitted event.obj with
  | none => Except.error PyErr.keyError
  | some ((aio_block, _), submitted') =>
    Except.ok
      ({ c with _submitted := submitted' },
       (aio_block, event.res, event.res2),
       [(aio_block.addr, event.res, event.res2)])

/-- Outcome of the external `io_cancel` call: either the kernel filled the
completion event, or the binding raised `OSError(errno)`. -/
inductive IoCancelResult where
  | ok (event : IoEvent)
  | error (errno : Nat)
deriving Repr, DecidableEq

/-- `AIOContext.cancel`, `libaio/__init__.py` lines 476-496: EINPROGRESS
from `io_cancel` yields `None`; any other `OSError` is re-raised; on success
the synthesized event goes through `_eventToPython`. -/
def cancel (c : AIOContext) (_block : AIOBlock) (io_cancel_result : IoCancelResult) :
    Except PyErr (AIOContext × Option Triple × List HookCall) :=
  match io_cancel_result with
  | IoCancelResult.error e =>
    if e = EINPROGRESS then Except.ok (c, none, [])
    else Except.error (PyErr.osError e)
  | IoCancelResult.ok event =>
    match _eventToPython c event with
    | Except.error err => Except.error err
    | Except.ok (c', t, l) => Except.ok (c', some t, l)

/-- The `for block, _ in self._submitted.values():` loop of `cancelAll`
(`libaio/__init__.py` lines 508-519), with CPython 3 dict-iterator
semantics: each `next()` call (including the final one that would end the
loop) first checks that the dict still has the size it had when the iterator
was created, and raises RuntimeError otherwise.  `io_cancel_results` gives
the kernel's reply to `io_cancel` per block address. -/
def cancelAllLoop (io_cancel_results : Nat → IoCancelResult) (orig_size : Nat) :
    List Entry → AIOContext → List (Option Triple) → List HookCall →
    Except PyErr (AIOContext × List (Option Triple) × List HookCall)
  | entries, c, result, log =>
    if dictLen c._submitted ≠ orig_size then Except.error PyErr.runtimeError
    else
      match entries with
      | [] => Except.ok (c, result, log)
      | (block, _) :: rest =>
        match cancel c block (io_cancel_results block.addr) with
        | Except.ok (c', t, l) =>
          cancelAllLoop io_cancel_results orig_size rest c' (result ++ [t]) (log ++ l)
        | Except.error (PyErr.osError e) =>
          if e ≠ EINVAL then Except.error (PyErr.osError e)
          else cancelAllLoop io_cancel_results orig_size rest c result log
        | Except.error err => Except.error err

/-- `AIOContext.cancelAll`, `libaio/__init__.py` lines 498-519. -/
def cancelAll (c : AIOContext) (io_cancel_results : Nat → IoCancelResult) :
    Except PyErr (AIOContext × List (Option Triple) × List HookCall) :=
  cancelAllLoop io_cancel_results (dictLen c._submitted) (dictValues c._submitted) c [] []

/-- The list comprehension of `getEvents` (`libaio/__init__.py` lines
560-563): `_eventToPython` applied to each kernel-filled event in order,
with any exception aborting the whole call. -/
def processEvents : AIOContext → List IoEvent →
    Except PyErr (AIOContext × List Triple × List HookCall)
  | c, [] => Except.ok (c, [], [])
  | c, event :: rest =>
    match _eventToPython c event with
    | Except.error e => Except.error e
    | Except.ok (c', t, l) =>
      match processEvents c' rest with
      | Except.error e => Except.error e
      | Except.ok (c'', ts, ls) => Except.ok (c'', t :: ts, l ++ ls)

/-- Python `int()` applied to a float (modelled as a rational): truncation
toward zero. -/
def pyInt (q : ℚ) : Int :=
  if 0 ≤ q then ⌊q⌋ else ⌈q⌉

/-- Default resolution of `min_nr`, `libaio/__init__.py` lines 542-543. -/
def resolve_min_nr (c : AIOContext) (min_nr : Option Nat) : Nat :=
  match min_nr with
  | none => dictLen c._submitted
  | some m => m

/-- Default resolution of `nr`, `libaio/__init__.py` lines 544-545. -/
def resolve_nr (c : AIOContext) (nr : Option Nat) : Nat :=
  match nr with
  | none => max (dictLen c._submitted) c._maxevents
  | some n => n

/-- Resolution of `timeout`, `libaio/__init__.py` lines 546-551: `None`
passes a NULL timespec pointer; otherwise `sec = int(timeout)` and the
timespec is `(sec, int((timeout - sec) * 1e9))`. -/
def resolve_timeout (timeout : Option ℚ) : Option (Int × Int) :=
  match timeout with
  | none => none
  | some t =>
    let sec := pyInt t
    some (sec, pyInt ((t - (sec : ℚ)) * 1000000000))

/-- `AIOContext.getEvents`, `libaio/__init__.py` lines 521-563.  The external
`io_getevents` call is the oracle `io_getevents`, applied to the resolved
`min_nr`, `nr` and timespec; it returns the `actual_nr` kernel-filled events
in kernel order. -/
def getEvents (c : AIOContext) (min_nr nr : Option Nat) (timeout : Option ℚ)
    (io_getevents : Nat → Nat → Option (Int × Int) → List IoEvent) :
    Except PyErr (AIOContext × List Triple × List HookCall) :=
  processEvents c
    (io_getevents (resolve_min_nr c min_nr) (resolve_nr c nr) (resolve_timeout timeout))

/-- `dictRemove` folded over a list of keys, describing the table after a
sequence of `_eventToPython` pops. -/
def removeList (d : Dict Entry) (ks : List Nat) : Dict Entry :=
  ks.foldl dictRemove d

/-! Concrete test data, mirroring the fixtures of `libaio/test.py`
(a read block over two small buffers, a second independent block, and
contexts with these blocks registered). -/

/-- A 2-byte `bytearray` at address 1000. -/
def buf0 : Buffer :=
  { addr := 1000, len := 2 }

/-- A 3-byte `bytearray` at address 2000. -/
def buf1 : Buffer :=
  { addr := 2000, len := 3 }

/-- The read-mode block `AIOBlock(AIOBLOCK_MODE_READ, fd 3, [buf0], 0)`,
whose iocb lives at address 4096. -/
def blk1 : AIOBlock :=
  { addr := 4096
    iocb :=
      { aio_lio_opcode := IO_CMD_PREADV
        aio_reqprio := 0
        aio_fildes := 3
        aio_rw_flags := 0
        u_c_buf := BufVal.iovecPtr [(1000, 2)]
        u_c_nbytes := 1
        u_c_offset := 0
        u_c_flags := 0
        u_c_resfd := 0 }
    _buffer_list := some [buf0]
    _eventfd := StoredEventFD.eventfdFunction
    _file := some 3
    _iovec := some [(1000, 2)] }

/-- A second read-mode block over `buf1`, iocb at address 8192, fd 4. -/
def blk2 : AIOBlock :=
  { addr := 8192
    iocb :=
      { aio_lio_opcode := IO_CMD_PREADV
        aio_reqprio := 0
        aio_fildes := 4
        aio_rw_flags := 0
        u_c_buf := BufVal.iovecPtr [(2000, 3)]
        u_c_nbytes := 1
        u_c_offset := 0
        u_c_flags := 0
        u_c_resfd := 0 }
    _buffer_list := some [buf1]
    _eventfd := StoredEventFD.eventfdFunction
    _file := some 4
    _iovec := some [(2000, 3)] }

/-- A context (capacity 1, kernel handle 7) with `blk1` registered. -/
def ctx1 : AIOContext :=
  { _maxevents := 1
    _submitted := [(4096, (blk1, _getSubmissionState blk1))]
    _ctx := some 7
    releaseLog := [] }

/-- A context (capacity 2, kernel handle 7) with `blk1` and `blk2`
registered. -/
def ctx2 : AIOContext :=
  { _maxevents := 2
    _submitted :=
      [(4096, (blk1, _getSubmissionState blk1)), (8192, (blk2, _getSubmissionState blk2))]
    _ctx := some 7
    releaseLog := [] }

/-- A completion event for `blk1`: 4 bytes read. -/
def ev1 : IoEvent :=
  { obj := 4096, res := 4, res2 := 0 }

/-- A completion event for `blk2`: failure code -11. -/
def ev2 : IoEvent :=
  { obj := 8192, res := -11, res2 := 0 }

/-- An `io_cancel` oracle that confirms immediate cancellation of `blk1`
with result -125 (-ECANCELED). -/
def cancelOk1 : Nat → IoCancelResult :=
  fun _ => IoCancelResult.ok { obj := 4096, res := -125, res2 := 0 }

/-- An `io_getevents` oracle returning `[ev1, ev2]` whatever its
arguments. -/
def ker5 : Nat → Nat → Option (Int × Int) → List IoEvent :=
  fun _ _ _ => [ev1, ev2]

/-- The block each of `ev1`/`ev2` correlates to in `ctx2`. -/
def f5 : IoEvent → AIOBlock :=
  fun ev => if ev.obj = 4096 then blk1 else blk2

/-- The retained submission state for each of `ev1`/`ev2` in `ctx2`. -/
def g5 : IoEvent → SubState :=
  fun ev => if ev.obj = 4096 then _getSubmissionState blk1 else _getSubmissionState blk2

/-! Laws of the Python-dict model. -/

theorem dictLookup_set_self {α : Type} (d : Dict α) (k : Nat) (v : α) :
    dictLookup (dictSet d k v) k = some v := by
  induction d with
  | nil => simp [dictSet, dictLookup]
  | cons hd tl ih =>
    obtain ⟨k', v'⟩ := hd
    by_cases h : k' = k <;> simp [dictSet, dictLookup, h, ih]

theorem dictLookup_set_ne {α : Type} (d : Dict α) (k k' : Nat) (v : α) (h : k' ≠ k) :
    dictLookup (dictSet d k v) k' = dictLookup d k' := by
  induction d with
  | nil => simp [dictSet, dictLookup, Ne.symm h]
  | cons hd tl ih =>
    obtain ⟨k0, v0⟩ := hd
    by_cases h0 : k0 = k
    · subst h0
      simp [dictSet, dictLookup, h, Ne.symm h]
    · simp [dictSet, dictLookup, h0, ih]

theorem dictLookup_remove_ne {α : Type} (d : Dict α) (k k' : Nat) (h : k' ≠ k) :
    dictLookup (dictRemove d k) k' = dictLookup d k' := by
  induction d with
  | nil => simp [dictRemove, dictLookup]
  | cons hd tl ih =>
    obtain ⟨k0, v0⟩ := hd
    by_cases h0 : k0 = k
    · subst h0
      simp [dictRemove, dictLookup, Ne.symm h]
    · simp [dictRemove, dictLookup, h0, ih]

theorem dictLookup_eq_none_of_not_mem {α : Type} (d : Dict α) (k : Nat)
    (h : k ∉ d.map Prod.fst) : dictLookup d k = none := by
  induction d with
  | nil => simp [dictLookup]
  | cons hd tl ih =>
    obtain ⟨k0, v0⟩ := hd
    simp only [List.map_cons, List.mem_cons, not_or] at h
    simp [dictLookup, Ne.symm h.1, ih h.2]

theorem dictRemove_keys_sublist {α : Type} (d : Dict α) (k : Nat) :
    ((dictRemove d k).map Prod.fst).Sublist (d.map Prod.fst) := by
  induction d with
  | nil => simp [dictRemove]
  | cons hd tl ih =>
    obtain ⟨k0, v0⟩ := hd
    by_cases h0 : k0 = k
    · simp only [dictRemove, h0, if_pos rfl, List.map_cons]
      exact List.sublist_cons_self _ _
    · simpa [dictRemove, h0] using ih.cons₂ k0

theorem dictNodupKeys_remove {α : Type} (d : Dict α) (k : Nat) (h : dictNodupKeys d) :
    dictNodupKeys (dictRemove d k) :=
  h.sublist (dictRemove_keys_sublist d k)

theorem dictLookup_remove_self {α : Type} (d : Dict α) (k : Nat) (h : dictNodupKeys d) :
    dictLookup (dictRemove d k) k = none := by
  induction d with
  | nil => simp [dictRemove, dictLookup]
  | cons hd tl ih =>
    obtain ⟨k0, v0⟩ := hd
    simp only [dictNodupKeys, List.map_cons, List.nodup_cons] at h
    by_cases h0 : k0 = k
    · subst h0
      simp only [dictRemove, if_pos rfl]
      exact dictLookup_eq_none_of_not_mem tl k0 h.1
    · simp [dictRemove, dictLookup, h0, ih h.2]

theorem dictLookup_remove_of_none {α : Type} (d : Dict α) (j k : Nat)
    (h : dictLookup d k = none) : dictLookup (dictRemove d j) k = none := by
  induction d with
  | nil => simp [dictRemove, dictLookup]
  | cons hd tl ih =>
    obtain ⟨k0, v0⟩ := hd
    by_cases h0 : k0 = k
    · subst h0
      simp [dictLookup] at h
    · simp only [dictLookup, if_neg h0] at h
      by_cases h1 : k0 = j <;> simp [dictRemove, dictLookup, h0, h1, h, ih h]

theorem dictLookup_removeList_not_mem (d : Dict Entry) (ks : List Nat) (k : Nat)
    (h : k ∉ ks) : dictLookup (removeList d ks) k = dictLookup d k := by
  induction ks generalizing d with
  | nil => simp [removeList]
  | cons k0 rest ih =>
    simp only [List.mem_cons, not_or] at h
    have step : removeList d (k0 :: rest) = removeList (dictRemove d k0) rest := rfl
    rw [step, ih (dictRemove d k0) h.2, dictLookup_remove_ne d k0 k h.1]

theorem dictLookup_removeList_of_none (d : Dict Entry) (ks : List Nat) (k : Nat)
    (h : dictLookup d k = none) : dictLookup (removeList d ks) k = none := by
  induction ks generalizing d with
  | nil => simpa [removeList] using h
  | cons k0 rest ih =>
    have step : removeList d (k0 :: rest) = removeList (dictRemove d k0) rest := rfl
    rw [step]
    exact ih (dictRemove d k0) (dictLookup_remove_of_none d k0 k h)

theorem dictLookup_removeList_mem (d : Dict Entry) (ks : List Nat) (k : Nat)
    (hnd : dictNodupKeys d) (h : k ∈ ks) : dictLookup (removeList d ks) k = none := by
  induction ks generalizing d with
  | nil => simp at h
  | cons k0 rest ih =>
    have step : removeList d (k0 :: rest) = removeList (dictRemove d k0) rest := rfl
    rw [step]
    rcases List.mem_cons.mp h with h0 | h0
    · subst h0
      exact dictLookup_removeList_of_none _ rest k (dictLookup_remove_self d k hnd)
    · exact ih (dictRemove d k0) (dictNodupKeys_remove d k0 hnd) h0

/-! Laws of the registration loop of `submit`. -/

theorem dictLookup_registerList_not_mem (d : Dict Entry) (bs : List AIOBlock) (k : Nat)
    (h : k ∉ bs.map AIOBlock.addr) :
    dictLookup (registerList d bs) k = dictLookup d k := by
  induction bs generalizing d with
  | nil => simp [registerList]
  | cons x rest ih =>
    simp only [List.map_cons, List.mem_cons, not_or] at h
    have step : registerList d (x :: rest) =
        registerList (dictSet d x.addr (x, _getSubmissionState x)) rest := rfl
    rw [step, ih _ h.2, dictLookup_set_ne d x.addr k _ h.1]

theorem dictLookup_registerList_mem (d : Dict Entry) (bs : List AIOBlock) (b : AIOBlock)
    (hnd : (bs.map AIOBlock.addr).Nodup) (hb : b ∈ bs) :
    dictLookup (registerList d bs) b.addr = some (b, _getSubmissionState b) := by
  induction bs generalizing d with
  | nil => simp at hb
  | cons x rest ih =>
    simp only [List.map_cons, List.nodup_cons] at hnd
    have step : registerList d (x :: rest) =
        registerList (dictSet d x.addr (x, _getSubmissionState x)) rest := rfl
    rw [step]
    rcases List.mem_cons.mp hb with h0 | h0
    · subst h0
      rw [dictLookup_registerList_not_mem _ rest b.addr hnd.1]
      exact dictLookup_set_self d b.addr _
    · exact ih _ hnd.2 h0

/-! The completion-draining loop. -/

theorem processEvents_ok (evs : List IoEvent) (c : AIOContext)
    (f : IoEvent → AIOBlock) (g : IoEvent → SubState)
    (hnd : (evs.map IoEvent.obj).Nodup)
    (hl : ∀ ev ∈ evs, dictLookup c._submitted ev.obj = some (f ev, g ev)) :
    processEvents c evs =
      Except.ok
        ({ c with _submitted := removeList c._submitted (evs.map IoEvent.obj) },
         evs.map (fun ev => (f ev, ev.res, ev.res2)),
         evs.map (fun ev => ((f ev).addr, ev.res, ev.res2))) := by
  induction evs generalizing c with
  | nil => simp [processEvents, removeList]
  | cons ev rest ih =>
    simp only [List.map_cons, List.nodup_cons] at hnd
    have hev := hl ev (List.mem_cons_self ev rest)
    have hrest : ∀ ev' ∈ rest, dictLookup
        (dictRemove c._submitted ev.obj) ev'.obj = some (f ev', g ev') := by
      intro ev' hev'
      have hne : ev'.obj ≠ ev.obj := by
        intro hcontra
        exact hnd.1 (hcontra ▸ List.mem_map_of_mem IoEvent.obj hev')
      rw [dictLookup_remove_ne _ ev.obj ev'.obj hne]
      exact hl ev' (List.mem_cons_of_mem ev hev')
    have ihc := ih { c with _submitted := dictRemove c._submitted ev.obj } hnd.2 hrest
    simp only [processEvents, _eventToPython, dictPop, hev]
    rw [ihc]
    simp [removeList]

/-- Sanity check: `blk1` is exactly the block
`AIOBlock(AIOBLOCK_MODE_READ, fd 3, [buf0], 0)` whose iocb sits at 4096. -/
theorem blk1_from_init :
    AIOBlock.init 4096 AIOBlockMode.read (some 3) [buf0] 0 none 0 none 0 =
      Except.ok blk1 := rfl

/-- Sanity check: `blk2` is exactly the block
`AIOBlock(AIOBLOCK_MODE_READ, fd 4, [buf1], 0)` whose iocb sits at 8192. -/
theorem blk2_from_init :
    AIOBlock.init 8192 AIOBlockMode.read (some 4) [buf1] 0 none 0 none 0 =
      Except.ok blk2 := rfl

/-- Claim C1: the spec (and `test.py` lines 86-100) requires `submit` to fail
with `DuplicateSubmission` (a `ValueError`) when a batch contains the same
descriptor twice or an already in-flight descriptor, registering nothing.
The code has no such check: submitting `[blk1, blk1]` succeeds, registers
`blk1`, and returns the kernel's accepted count; resubmitting the registered
`blk1` succeeds as well (the dict entry is silently overwritten). -/
theorem C1_submit_duplicate_not_rejected :
    submit (AIOContext.init 1 7) [blk1, blk1] (Except.ok 2) =
      Except.ok
        ({ AIOContext.init 1 7 with
            _submitted := [(4096, (blk1, _getSubmissionState blk1))] }, 2) ∧
    submit { AIOContext.init 1 7 with
        _submitted := [(4096, (blk1, _getSubmissionState blk1))] } [blk1] (Except.ok 1) =
      Except.ok
        ({ AIOContext.init 1 7 with
            _submitted := [(4096, (blk1, _getSubmissionState blk1))] }, 1) :=
  ⟨rfl, rfl⟩

/-- Claim C3 counterexample: constructing an `AIOBlock` with readiness-poll
mode and a non-empty `buffer_list`, a non-zero `offset` and non-zero
`rw_flags` does not fail with `InvalidCombination`: it succeeds and the
mismatched arguments are silently ignored (the block has an empty buffer
list, zero offset and zero rw_flags).  Conversely a read-mode construction
with a non-zero `event_mask` succeeds and ignores the mask. -/
theorem C3_counterexample :
    AIOBlock.init 4096 AIOBlockMode.poll (some 3) [buf0] 7 none 9 none 5 =
      Except.ok
        { addr := 4096
          iocb :=
            { aio_lio_opcode := IO_CMD_POLL
              aio_reqprio := 0
              aio_fildes := 3
              aio_rw_flags := 0
              u_c_buf := BufVal.mask 5
              u_c_nbytes := 0
              u_c_offset := 0
              u_c_flags := 0
              u_c_resfd := 0 }
          _buffer_list := some []
          _eventfd := StoredEventFD.eventfdFunction
          _file := some 3
          _iovec := none } ∧
    AIOBlock.init 4096 AIOBlockMode.read (some 3) [buf0] 0 none 0 none 5 =
      Except.ok blk1 :=
  ⟨rfl, rfl⟩

/-- Claim C3 (amended): `AIOBlock.__init__` never raises on mismatched
kind-specific arguments and performs no kernel interaction: it always
succeeds, with readiness-poll mode the `buffer_list`/`offset`/`rw_flags`
arguments are ignored, and with any other mode the `event_mask` argument is
ignored. -/
theorem C3_init_ignores_mismatched_fields :
    ∀ (addr : Nat) (mode : AIOBlockMode) (target_file : Option Int)
      (buffer_list : List Buffer) (offset : Int) (eventfd : Option Int)
      (rw_flags : Int) (io_priority : Option Int) (event_mask : Nat),
      (∃ b', AIOBlock.init addr mode target_file buffer_list offset eventfd
        rw_flags io_priority event_mask = Except.ok b') ∧
      (mode = AIOBlockMode.poll →
        AIOBlock.init addr mode target_file buffer_list offset eventfd
          rw_flags io_priority event_mask =
        AIOBlock.init addr mode target_file [] 0 eventfd 0 io_priority event_mask) ∧
      (mode ≠ AIOBlockMode.poll →
        AIOBlock.init addr mode target_file buffer_list offset eventfd
          rw_flags io_priority event_mask =
        AIOBlock.init addr mode target_file buffer_list offset eventfd
          rw_flags io_priority 0) := by
  intro addr mode target_file buffer_list offset eventfd rw_flags io_priority event_mask
  refine ⟨?_, ?_, ?_⟩
  · cases mode <;> cases target_file <;> cases io_priority <;> cases buffer_list <;>
      exact ⟨_, rfl⟩
  · intro h
    subst h
    rfl
  · cases mode <;> intro h <;> first | rfl | exact absurd rfl h

/-- Claim C3 witness: the amended statement at concrete inputs. -/
theorem C3_witness :
    AIOBlock.init 4096 AIOBlockMode.poll (some 3) [buf0] 7 none 9 none 5 =
      AIOBlock.init 4096 AIOBlockMode.poll (some 3) [] 0 none 0 none 5 ∧
    AIOBlock.init 4096 AIOBlockMode.read (some 3) [buf0] 0 none 0 none 5 =
      AIOBlock.init 4096 AIOBlockMode.read (some 3) [buf0] 0 none 0 none 0 ∧
    (∃ b', AIOBlock.init 4096 AIOBlockMode.poll (some 3) [buf0] 7 none 9 none 5 =
      Except.ok b') := by
  have t1 := C3_init_ignores_mismatched_fields 4096 AIOBlockMode.poll (some 3)
    [buf0] 7 none 9 none 5
  have t2 := C3_init_ignores_mismatched_fields 4096 AIOBlockMode.read (some 3)
    [buf0] 0 none 0 none 5
  exact ⟨t1.2.1 rfl, t2.2.2 (by decide), t1.1⟩

/-- Claim C4 counterexample: when the kernel reports the descriptor was not
in flight (`io_cancel` fails with EINVAL, e.g. for a descriptor that was
never submitted or already completed), `cancel` does not treat it as
success-with-no-record: it re-raises the `OSError`.  Only EINPROGRESS is a
non-error outcome. -/
theorem C4_counterexample :
    cancel (AIOContext.init 1 7) blk1 (IoCancelResult.error EINVAL) =
      Except.error (PyErr.osError EINVAL) := rfl

/-- Claim C4 (amended): `cancel` has exactly two non-error outcomes: if the
kernel confirms immediate cancellation it removes the descriptor from the
submitted table, invokes its completion hook with the synthesized event's
result values, and returns the synthesized completion record; if the kernel
reports EINPROGRESS it returns `None` and the table is untouched.  If the
kernel reports any other error — including EINVAL for a descriptor not
actually in flight — `cancel` propagates the `OSError` (that condition is
tolerated only by `cancelAll`). -/
theorem C4_cancel_outcomes :
    ∀ (c : AIOContext) (block bl' : AIOBlock) (st : SubState) (ev : IoEvent) (e : Nat),
      cancel c block (IoCancelResult.error EINPROGRESS) = Except.ok (c, none, []) ∧
      (ev.obj = block.addr →
        dictLookup c._submitted block.addr = some (bl', st) →
        cancel c block (IoCancelResult.ok ev) =
          Except.ok
            ({ c with _submitted := dictRemove c._submitted block.addr },
             some (bl', ev.res, ev.res2), [(bl'.addr, ev.res, ev.res2)])) ∧
      (e ≠ EINPROGRESS →
        cancel c block (IoCancelResult.error e) = Except.error (PyErr.osError e)) := by
  intro c block bl' st ev e
  refine ⟨?_, ?_, ?_⟩
  · simp [cancel]
  · intro hobj hlk
    simp [cancel, _eventToPython, dictPop, hobj, hlk]
  · intro h
    simp [cancel, h]

/-- Claim C4 witness: the amended statement at concrete inputs. -/
theorem C4_witness :
    cancel ctx1 blk1 (IoCancelResult.error EINPROGRESS) = Except.ok (ctx1, none, []) ∧
    cancel ctx1 blk1 (IoCancelResult.ok { obj := 4096, res := -125, res2 := 0 }) =
      Except.ok
        ({ ctx1 with _submitted := dictRemove ctx1._submitted blk1.addr },
         some (blk1, -125, 0), [(blk1.addr, -125, 0)]) ∧
    cancel ctx1 blk1 (IoCancelResult.error EINVAL) =
      Except.error (PyErr.osError EINVAL) := by
  have t := C4_cancel_outcomes ctx1 blk1 blk1 (_getSubmissionState blk1)
    { obj := 4096, res := -125, res2 := 0 } EINVAL
  exact ⟨t.1, t.2.1 rfl (by decide), t.2.2 (by decide)⟩

/-- Claim C6: the spec requires `cancelAll` to cancel every table entry and
return the list of individual outcomes, tolerating EINVAL per entry.  But
the loop iterates `self._submitted.values()` directly while each successful
`cancel` pops an entry out of that same dict, so on CPython 3 the dict
iterator raises RuntimeError (size changed during iteration) as soon as any
cancellation completes immediately: with one registered block whose
cancellation the kernel confirms at once, `cancelAll` raises instead of
returning the one-element outcome list. -/
theorem C6_cancelAll_raises_runtime_error :
    cancelAll ctx1 cancelOk1 = Except.error PyErr.runtimeError := rfl

/-- Claim C8: `close` is idempotent.  The first call on a context holding a
kernel handle releases exactly that handle and clears `_ctx` (the
`del self._ctx` falls back to the class attribute `None`); every subsequent
call — directly, via `__exit__` or via `__del__` — is a no-op that releases
nothing again and raises nothing (`close` is total). -/
theorem C8_close_idempotent :
    ∀ (c : AIOContext) (h : Nat),
      close (close c) = close c ∧
      (close (close c)).releaseLog = (close c).releaseLog ∧
      __exit__ (close c) = close c ∧
      __del__ (close c) = close c ∧
      (close c)._ctx = none ∧
      (c._ctx = some h →
        close c = { c with _ctx := none, releaseLog := c.releaseLog ++ [h] }) := by
  intro c h
  cases hc : c._ctx with
  | none =>
    have h1 : close c = c := by simp [close, hc]
    refine ⟨?_, ?_, ?_, ?_, ?_, ?_⟩ <;> simp [__exit__, __del__, h1, hc]
  | some a =>
    have h1 : close c = { c with _ctx := none, releaseLog := c.releaseLog ++ [a] } := by
      simp [close, hc]
    have h2 : close (close c) = close c := by
      rw [h1]
      simp [close]
    refine ⟨h2, by rw [h2], ?_, ?_, ?_, ?_⟩
    · simpa [__exit__] using h2
    · simpa [__del__] using h2
    · rw [h1]
    · intro hh
      rw [h1, Option.some.inj hh]

/-- Claim C8 witness: closing a fresh context releases handle 7 once;
closing again (also via `__exit__`/`__del__`) changes nothing. -/
theorem C8_witness :
    close (close (AIOContext.init 1 7)) = close (AIOContext.init 1 7) ∧
    (close (close (AIOContext.init 1 7))).releaseLog =
      (close (AIOContext.init 1 7)).releaseLog ∧
    __exit__ (close (AIOContext.init 1 7)) = close (AIOContext.init 1 7) ∧
    __del__ (close (AIOContext.init 1 7)) = close (AIOContext.init 1 7) ∧
    (close (AIOContext.init 1 7))._ctx = none ∧
    close (AIOContext.init 1 7) =
      { AIOContext.init 1 7 with
          _ctx := none, releaseLog := (AIOContext.init 1 7).releaseLog ++ [7] } := by
  have t := C8_close_idempotent (AIOContext.init 1 7) 7
  exact ⟨t.1, t.2.1, t.2.2.1, t.2.2.2.1, t.2.2.2.2.1, t.2.2.2.2.2 rfl⟩

/-- Claim C9: assigning `b.eventfd = h` does set IOCB_FLAG_RESFD and store
the file descriptor in `resfd` (and assigning `None` clears both), but the
claim that a subsequent read of `b.eventfd` returns `h` is false: line 375
stores the module-level `eventfd` function instead of the assigned value, so
the getter returns that function object whatever was assigned — never the
handle, and never `None`. -/
theorem C9_eventfd_setter_stores_wrong_object :
    (eventfd_set blk1 (some 5)).iocb.u_c_flags = IOCB_FLAG_RESFD ∧
    (eventfd_set blk1 (some 5)).iocb.u_c_resfd = 5 ∧
    eventfd_get (eventfd_set blk1 (some 5)) = StoredEventFD.eventfdFunction ∧
    eventfd_get (eventfd_set blk1 (some 5)) ≠ StoredEventFD.handle 5 ∧
    (eventfd_set blk1 none).iocb.u_c_flags = 0 ∧
    (eventfd_set blk1 none).iocb.u_c_resfd = 0 ∧
    eventfd_get (eventfd_set blk1 none) ≠ StoredEventFD.pyNone := by
  decide

/-- Claim C10: on a non-poll block, assigning `v` to the `offset` property
stores `v` in the iocb, but reading the property back never returns it: the
getter evaluates `self._iocb.u.c.offset.value`, and ctypes returns the
`c_longlong` field as a plain Python int, which has no attribute `value`, so
every read raises AttributeError (contradicting `test.py` line 74). -/
theorem C10_offset_read_raises :
    blk1.iocb.aio_lio_opcode ≠ IO_CMD_POLL ∧
    (offset_set blk1 5).iocb.u_c_offset = 5 ∧
    offset_get (offset_set blk1 5) = Except.error PyErr.attributeError := by
  refine ⟨by decide, by decide, rfl⟩

/-- Claim C2: for every batch whose blocks all carry a target file, whose
iocb addresses are pairwise distinct and not yet registered, and every
accepted count `n` reported by the kernel, `submit` registers exactly the
first `n` blocks — each keyed by its iocb address and paired with its
retained `(buffer_list, iovec)` submission state — leaves the remaining
blocks unregistered, and returns `n`. -/
theorem C2_submit_registers_accepted_count :
    ∀ (c : AIOContext) (block_list : List AIOBlock) (n : Nat),
      (∀ b ∈ block_list, b._file.isSome) →
      n ≤ block_list.length →
      (block_list.map AIOBlock.addr).Nodup →
      (∀ b ∈ block_list, dictLookup c._submitted b.addr = none) →
      submit c block_list (Except.ok n) =
        Except.ok
          ({ c with _submitted := registerList c._submitted (block_list.take n) }, n) ∧
      (∀ b ∈ block_list.take n,
        dictLookup (registerList c._submitted (block_list.take n)) b.addr =
          some (b, _getSubmissionState b)) ∧
      (∀ b ∈ block_list.drop n,
        dictLookup (registerList c._submitted (block_list.take n)) b.addr = none) := by
  intro c bl n hfile hn hnd hfresh
  have hany : bl.any (fun x => x._file.isNone) = false := by
    rw [List.any_eq_false]
    intro x hx
    have hs := hfile x hx
    cases hfx : x._file with
    | none => rw [hfx] at hs; simp at hs
    | some v => simp [hfx]
  refine ⟨?_, ?_, ?_⟩
  · simp [submit, hany]
  · intro b hb
    apply dictLookup_registerList_mem
    · rw [List.map_take]
      exact List.Nodup.sublist (List.take_sublist n _) hnd
    · exact hb
  · intro b hb
    have hmembl : b ∈ bl := List.drop_subset n bl hb
    have hnotin : b.addr ∉ (bl.take n).map AIOBlock.addr := by
      rw [List.map_take]
      intro hcontra
      have hdrop : b.addr ∈ (bl.map AIOBlock.addr).drop n := by
        rw [← List.map_drop]
        exact List.mem_map_of_mem AIOBlock.addr hb
      have hsplit := hnd
      rw [← List.take_append_drop n (bl.map AIOBlock.addr)] at hsplit
      exact (List.nodup_append.mp hsplit).2.2 hcontra hdrop
    rw [dictLookup_registerList_not_mem _ _ _ hnotin]
    exact hfresh b hmembl

/-- Claim C2 witness: submitting `[blk1, blk2]` into a fresh context with
accepted count 1 registers exactly `blk1` and leaves `blk2` unregistered. -/
theorem C2_witness :
    submit (AIOContext.init 2 7) [blk1, blk2] (Except.ok 1) =
      Except.ok
        ({ AIOContext.init 2 7 with
            _submitted :=
              registerList (AIOContext.init 2 7)._submitted ([blk1, blk2].take 1) }, 1) ∧
    (∀ b ∈ [blk1, blk2].take 1,
      dictLookup (registerList (AIOContext.init 2 7)._submitted ([blk1, blk2].take 1))
        b.addr = some (b, _getSubmissionState b)) ∧
    (∀ b ∈ [blk1, blk2].drop 1,
      dictLookup (registerList (AIOContext.init 2 7)._submitted ([blk1, blk2].take 1))
        b.addr = none) :=
  C2_submit_registers_accepted_count (AIOContext.init 2 7) [blk1, blk2] 1
    (by decide) (by decide) (by decide) (by decide)

/-- Claim C5: for every list of kernel-filled completion events, `getEvents`
processes them in kernel order: each event's correlation token (the iocb
address) is popped from the submitted table (the whole call fails fatally
with KeyError if a token has no entry), the descriptor's completion hook is
invoked exactly once with exactly the event's `(res, res2)`, and
`(descriptor, res, res2)` is appended to the returned list — so the hook
log coincides, per descriptor and order, with the returned triples. -/
theorem C5_getEvents_processes_each_event :
    ∀ (c : AIOContext) (min_nr nr : Option Nat) (timeout : Option ℚ)
      (io_getevents : Nat → Nat → Option (Int × Int) → List IoEvent)
      (evs : List IoEvent) (f : IoEvent → AIOBlock) (g : IoEvent → SubState),
      io_getevents (resolve_min_nr c min_nr) (resolve_nr c nr)
        (resolve_timeout timeout) = evs →
      dictNodupKeys c._submitted →
      (evs.map IoEvent.obj).Nodup →
      (∀ ev ∈ evs, dictLookup c._submitted ev.obj = some (f ev, g ev)) →
      getEvents c min_nr nr timeout io_getevents =
        Except.ok
          ({ c with _submitted := removeList c._submitted (evs.map IoEvent.obj) },
           evs.map (fun ev => (f ev, ev.res, ev.res2)),
           evs.map (fun ev => ((f ev).addr, ev.res, ev.res2))) ∧
      (∀ ev ∈ evs,
        dictLookup (removeList c._submitted (evs.map IoEvent.obj)) ev.obj = none) ∧
      (∀ k, k ∉ evs.map IoEvent.obj →
        dictLookup (removeList c._submitted (evs.map IoEvent.obj)) k =
          dictLookup c._submitted k) ∧
      (∀ (c₀ : AIOContext) (ev : IoEvent) (rest : List IoEvent),
        dictLookup c₀._submitted ev.obj = none →
        processEvents c₀ (ev :: rest) = Except.error PyErr.keyError) := by
  intro c mn nr t ker evs f g hker hndk hnde hl
  refine ⟨?_, ?_, ?_, ?_⟩
  · unfold getEvents
    rw [hker]
    exact processEvents_ok evs c f g hnde hl
  · intro ev hev
    exact dictLookup_removeList_mem _ _ _ hndk (List.mem_map_of_mem IoEvent.obj hev)
  · intro k hk
    exact dictLookup_removeList_not_mem _ _ _ hk
  · intro c₀ ev rest h0
    simp [processEvents, _eventToPython, dictPop, h0]

/-- Claim C5 witness: draining `[ev1, ev2]` from `ctx2` returns
`[(blk1, 4, 0), (blk2, -11, 0)]` in kernel order with a matching hook log,
empties the corresponding table entries, leaves unrelated keys alone, and a
token without a table entry fails fatally. -/
theorem C5_witness :
    getEvents ctx2 none none none ker5 =
      Except.ok
        ({ ctx2 with _submitted := removeList ctx2._submitted ([ev1, ev2].map IoEvent.obj) },
         [ev1, ev2].map (fun ev => (f5 ev, ev.res, ev.res2)),
         [ev1, ev2].map (fun ev => ((f5 ev).addr, ev.res, ev.res2))) ∧
    dictLookup (removeList ctx2._submitted ([ev1, ev2].map IoEvent.obj)) ev1.obj = none ∧
    dictLookup (removeList ctx2._submitted ([ev1, ev2].map IoEvent.obj)) 5555 =
      dictLookup ctx2._submitted 5555 ∧
    processEvents (AIOContext.init 1 7) [ev1] = Except.error PyErr.keyError := by
  have t := C5_getEvents_processes_each_event ctx2 none none none ker5 [ev1, ev2] f5 g5
    rfl (by decide) (by decide) (by decide)
  exact ⟨t.1, t.2.1 ev1 (by decide), t.2.2.1 5555 (by decide),
    t.2.2.2 (AIOContext.init 1 7) ev1 [] (by decide)⟩

/-- Claim C7: `getEvents` resolves its defaulted arguments as the code does:
`min_nr = None` becomes the current submitted-table size, `nr = None`
becomes the maximum of that size and the construction-time `maxevents`,
`timeout = None` passes a NULL timespec pointer, and a finite timeout `t` is
decomposed into whole seconds `int(t)` and nanosecond remainder
`int((t - int(t)) * 1e9)` for the kernel wait call. -/
theorem C7_getEvents_default_arguments :
    ∀ (c : AIOContext) (ker : Nat → Nat → Option (Int × Int) → List IoEvent)
      (m n : Nat) (t : ℚ),
      resolve_min_nr c none = dictLen c._submitted ∧
      resolve_min_nr c (some m) = m ∧
      resolve_nr c none = max (dictLen c._submitted) c._maxevents ∧
      resolve_nr c (some n) = n ∧
      resolve_timeout none = none ∧
      resolve_timeout (some t) =
        some (pyInt t, pyInt ((t - (pyInt t : ℚ)) * 1000000000)) ∧
      getEvents c none none none ker =
        processEvents c
          (ker (dictLen c._submitted) (max (dictLen c._submitted) c._maxevents) none) ∧
      getEvents c (some m) (some n) (some t) ker =
        processEvents c
          (ker m n (some (pyInt t, pyInt ((t - (pyInt t : ℚ)) * 1000000000)))) := by
  intro c ker m n t
  exact ⟨rfl, rfl, rfl, rfl, rfl, rfl, rfl, rfl⟩

end Libaio
